import Mathlib

/-!
Shallow embedding of the repository: the Express API service in
src/server/index.js and the React client in src/client/src/App.jsx.
Mutable server state (the users array) is passed explicitly; route
handlers become pure functions from the current state and the request
data to the response (and the next state where the handler mutates).
-/

/-- One user record as stored in the in-memory users array, with the
field layout of the source: id, name, password (plaintext), email. -/
structure User where
  id : Nat
  name : String
  password : String
  email : String
deriving DecidableEq

/-- Initial contents of the in-memory users array. -/
def users : List User :=
  [ { id := 1, name := "John", password := "password123", email := "john@test.com" },
    { id := 2, name := "Jane", password := "admin", email := "jane@test.com" } ]

/-- Conversion of a route-parameter string to a number, as JS applies it
when loose equality compares a numeric id with a string: a nonempty
all-digit string denotes its decimal value; any other string is treated
as matching no id (a NaN comparison is false). -/
def jsToNumber? (s : String) : Option Nat :=
  if s.data ≠ [] ∧ s.data.all Char.isDigit then
    some (s.data.foldl (fun n c => n * 10 + (c.toNat - 48)) 0)
  else none

/-- JS loose equality (==) between the stored numeric id and the string
route parameter: the string is coerced to a number and compared. -/
def jsLooseEq (n : Nat) (s : String) : Bool :=
  match jsToNumber? s with
  | some m => m == n
  | none => false

/-- JS strict equality (===) between a number and a string: always
false, because the operands have different types. -/
def jsStrictEq (_n : Nat) (_s : String) : Bool := false

/-- JSON body produced by the GET /api/users/:id handler: either a full
user record, or the JSON error object whose error field carries the
message. -/
inductive GetUserBody where
  | user (u : User)
  | error (msg : String)
deriving DecidableEq

/-- Handler of GET /api/users/:id — users.find with u.id == id (loose
equality) returns the first match, sent as JSON; otherwise the JSON
error body is sent. res.json never sets the HTTP status, so both paths
answer with the Express default status 200. -/
def getUserHandler (us : List User) (id : String) : GetUserBody × Nat :=
  match us.find? (fun u => jsLooseEq u.id id) with
  | some u => (GetUserBody.user u, 200)
  | none => (GetUserBody.error "User not found", 200)

/-- Variant of the same lookup with strict equality (===) in place of
loose equality, used only to state what the handler would do under
strict string-to-number comparison. -/
def getUserHandlerStrict (us : List User) (id : String) : GetUserBody × Nat :=
  match us.find? (fun u => jsStrictEq u.id id) with
  | some u => (GetUserBody.user u, 200)
  | none => (GetUserBody.error "User not found", 200)

/-- Handler of POST /api/users — builds a record from the request-body
fields name, email, password exactly as given (no validation, no
duplicate or collision check), with id = users.length + 1, pushes it
onto the array, and sends it back as JSON. Returns (new array, created
record). -/
def postUserHandler (us : List User) (name email password : String) : List User × User :=
  let newUser : User := { id := us.length + 1, name := name, email := email, password := password }
  (us ++ [newUser], newUser)

/-- Handler of GET /api/all-users — sends the whole array as JSON. -/
def allUsersHandler (us : List User) : List User := us

/-- Body of someAsyncOperation: with Math.random() modelled as an exact
rational in the unit interval, a draw above one half throws an Error
with the message Random service failure, otherwise the success object
whose data field is the string Success is returned. -/
def someAsyncOperation (rand : ℚ) : Except String String :=
  if rand > 1 / 2 then Except.error "Random service failure"
  else Except.ok "Success"

/-- Outcome of a request to GET /api/async-operation: either a JSON
response was sent, or the handler died on an uncaught exception and no
response was produced for the request. -/
inductive AsyncOpResult where
  | jsonResponse (status : Nat) (data : String)
  | unhandledCrash (msg : String)
deriving DecidableEq

/-- Handler of GET /api/async-operation — awaits someAsyncOperation with
no try/catch anywhere on the path: a resolved value is sent with
res.json (default status 200), a rejection propagates out of the async
handler uncaught and the request crashes without a response. -/
def asyncOperationHandler (rand : ℚ) : AsyncOpResult :=
  match someAsyncOperation rand with
  | Except.ok d => AsyncOpResult.jsonResponse 200 d
  | Except.error msg => AsyncOpResult.unhandledCrash msg

/-- Error object thrown by fs.readFileSync, with the three properties
the handler serializes: message, stack, path. -/
structure FsError where
  message : String
  stack : String
  path : String
deriving DecidableEq

/-- Response of GET /api/file/:filename: the file bytes, or a status-500
JSON body echoing the message, stack and path of the thrown error. -/
inductive FileResponse where
  | sent (status : Nat) (data : List Nat)
  | errorJson (status : Nat) (error : String) (stack : String) (path : String)
deriving DecidableEq

/-- Handler of GET /api/file/:filename — reads ./uploads/ plus the
filename synchronously and sends the bytes; when the read throws, it
answers status 500 with a JSON body carrying error.message, error.stack
and error.path verbatim. The handler never consults any environment or
production flag: the body is identical in every mode. -/
def getFileHandler (fsRead : String → Except FsError (List Nat))
    (filename : String) : FileResponse :=
  match fsRead ("./uploads/" ++ filename) with
  | Except.ok data => FileResponse.sent 200 data
  | Except.error e => FileResponse.errorJson 500 e.message e.stack e.path

/-- Modelled from Node fs semantics (fs is a library, not repository
code): readFileSync of a path naming no existing file throws an ENOENT
Error whose path property is exactly the raw path it was given. -/
def enoent (p : String) : FsError :=
  { message := "ENOENT: no such file or directory, open " ++ p
  , stack := "Error: ENOENT: no such file or directory, open " ++ p
  , path := p }

/-- Filesystem in which no requested file exists: every read throws
ENOENT for the path it was asked for. -/
def emptyUploadsFs : String → Except FsError (List Nat) :=
  fun p => Except.error (enoent p)

/-- States of the users array reachable from the initial array by POST
/api/users requests executed sequentially, with no other mutation (none
exists in the source: no handler deletes or edits records). -/
inductive ReachableByPosts : List User → Prop where
  | init : ReachableByPosts users
  | post (us : List User) (name email password : String) :
      ReachableByPosts us → ReachableByPosts (postUserHandler us name email password).1

/-- Entry shape the client pushes on an Add User click: the object
literal built in the onClick handler has an id (Date.now()) and a name,
nothing else. -/
structure ClientUser where
  id : Nat
  name : String
deriving DecidableEq

/-- Client view of the users list, over an arbitrary entry type: the
contents of the array object held in the users state variable, and the
entries shown by the last committed render. -/
structure AppView (α : Type) where
  stateUsers : List α
  renderedUsers : List α
deriving DecidableEq

/-- React useState setter for the users list. React compares the value
passed with the current state value by Object.is; sameRef records
whether the argument is the very array object already held in state.
When it is, the comparison sees an unchanged value, React bails out and
no re-render is committed; otherwise the value is stored and the list is
re-rendered from it. -/
def setUsers {α : Type} (v : AppView α) (newValue : List α) (sameRef : Bool) : AppView α :=
  if sameRef then v
  else { stateUsers := newValue, renderedUsers := newValue }

/-- Click handler addUser of the source: users.push(newUser) mutates the
state array in place, then setUsers(users) hands that same array object
back to the setter, so the call carries sameRef = true. -/
def addUser {α : Type} (v : AppView α) (newUser : α) : AppView α :=
  let pushed := v.stateUsers ++ [newUser]
  setUsers { v with stateUsers := pushed } pushed true

/-- Observable steps the client function fetchUsers(userId) performs, in
order. -/
inductive FetchEvent where
  | setLoading (b : Bool)
  | fetchStart (url : String)
  | fetchSettle (ok : Bool)
  | setUsers (data : GetUserBody)
deriving DecidableEq

/-- Trace of fetchUsers(userId): setLoading(true) first, then the fetch
of /api/users/ plus the id; on a successful settle the parsed body is
stored with setUsers, on a failed settle the catch block swallows the
error and does nothing; both paths end with the setLoading(false) that
follows the try/catch. -/
def fetchUsersTrace (userId : Nat) (outcome : Except Unit GetUserBody) : List FetchEvent :=
  FetchEvent.setLoading true ::
    FetchEvent.fetchStart ("/api/users/" ++ toString userId) ::
    ((match outcome with
      | Except.ok data => [FetchEvent.fetchSettle true, FetchEvent.setUsers data]
      | Except.error _ => [FetchEvent.fetchSettle false]) ++
     [FetchEvent.setLoading false])

/-- Value of the loading flag after a list of events has run, starting
from its initial value false. -/
def loadingAfter (events : List FetchEvent) : Bool :=
  events.foldl (fun b e =>
    match e with
    | FetchEvent.setLoading v => v
    | _ => b) false

/-- Value of the loading flag observed at each instant of a trace: one
entry per position from before the first event to after the last. -/
def loadingStates (events : List FetchEvent) : List Bool :=
  (List.range (events.length + 1)).map (fun i => loadingAfter (events.take i))

/-- Initial value of the count state of the client. -/
def initialCount : Nat := 0

/-- Values the users state variable of the client can hold: the array it
starts with, or whatever parsed JSON body a fetch stored into it. -/
inductive UsersState where
  | arr (us : List User)
  | obj (body : GetUserBody)
deriving DecidableEq

/-- Test of whether the users state holds a list of user records. -/
def isUserList : UsersState → Bool
  | UsersState.arr _ => true
  | UsersState.obj _ => false

/-- URL of the mount-effect fetch: fetchUsers(count) runs with count
still at its initial value. -/
def mountFetchUrl : String := "/api/users/" ++ toString initialCount

/-- Users state after the mount effect settles: the client stores the
parsed body of GET /api/users/0 as served against the initial users
array. -/
def usersStateAfterMount : UsersState :=
  UsersState.obj (getUserHandler users (toString initialCount)).1

/-- C1: every GET /api/users/:id answers with HTTP status 200; when some
stored user matches the id under the loose comparison used by the code,
the body is that matching user record (the first match, with all of its
fields, password included); when no stored user matches, the body is the
JSON error object with message User not found, and the status is still
200, never 404. -/
theorem getUser_always_200_body_by_match (us : List User) (id : String) :
    (getUserHandler us id).2 = 200 ∧
    ((∃ u ∈ us, jsLooseEq u.id id = true) →
      ∃ u ∈ us, jsLooseEq u.id id = true ∧ (getUserHandler us id).1 = GetUserBody.user u) ∧
    ((∀ u ∈ us, jsLooseEq u.id id = false) →
      (getUserHandler us id).1 = GetUserBody.error "User not found") := by
  refine ⟨?_, ?_, ?_⟩
  · rcases h : us.find? (fun u => jsLooseEq u.id id) with _ | v <;>
      simp [getUserHandler, h]
  · rintro ⟨u, hu, hm⟩
    have hsome : (us.find? (fun u => jsLooseEq u.id id)).isSome := by
      rw [List.find?_isSome]
      exact ⟨u, hu, hm⟩
    rcases h : us.find? (fun u => jsLooseEq u.id id) with _ | v
    · rw [h] at hsome
      simp at hsome
    · have hp := List.find?_some h
      exact ⟨v, List.mem_of_find?_eq_some h, hp, by simp [getUserHandler, h]⟩
  · intro hall
    have h : us.find? (fun u => jsLooseEq u.id id) = none := by
      rw [List.find?_eq_none]
      intro x hx
      simp [hall x hx]
    simp [getUserHandler, h]

/-- Witness for C1 at a concrete input: id 99 matches nobody in the
initial array, the body is the error object and the status is 200. -/
theorem getUser_always_200_body_by_match_witness :
    (getUserHandler users "99").2 = 200 ∧
    (getUserHandler users "99").1 = GetUserBody.error "User not found" :=
  ⟨(getUser_always_200_body_by_match users "99").1,
   (getUser_always_200_body_by_match users "99").2.2 (by decide)⟩

/-- C2: POST /api/users appends a record whose id is the current array
length plus one and whose name, email and password are the request-body
fields verbatim, for every input whatsoever (hence no validation and no
collision check), and returns that record as the response body. -/
theorem postUser_appends_unvalidated (us : List User) (name email password : String) :
    (postUserHandler us name email password).2.id = us.length + 1 ∧
    (postUserHandler us name email password).2.name = name ∧
    (postUserHandler us name email password).2.email = email ∧
    (postUserHandler us name email password).2.password = password ∧
    (postUserHandler us name email password).1
      = us ++ [(postUserHandler us name email password).2] :=
  ⟨rfl, rfl, rfl, rfl, rfl⟩

/-- C7: for every state of the users array, a POST /api/users followed
by GET /api/all-users yields the old array with the created record
appended, and the length grows by exactly one. -/
theorem post_then_allUsers_appends (us : List User) (name email password : String) :
    allUsersHandler (postUserHandler us name email password).1
      = allUsersHandler us ++ [(postUserHandler us name email password).2] ∧
    (allUsersHandler (postUserHandler us name email password).1).length
      = (allUsersHandler us).length + 1 := by
  refine ⟨rfl, ?_⟩
  simp [allUsersHandler, postUserHandler]

/-- Invariant of the id-assignment scheme: along any sequence of POSTs
from the initial array, the stored ids are exactly 1, 2, ..., length in
order. -/
lemma reachableByPosts_ids (us : List User) (h : ReachableByPosts us) :
    us.map User.id = List.range' 1 us.length := by
  induction h with
  | init => rfl
  | post us name email password _ ih =>
    simp only [postUserHandler, List.map_append, List.length_append,
      List.map_cons, List.map_nil, List.length_cons, List.length_nil]
    rw [ih, Nat.zero_add, List.range'_1_concat, Nat.add_comm 1 us.length]

/-- C6: starting from any state reachable from the initial two-user
array by sequential POSTs, the next POST is assigned an id strictly
greater than the id of every stored record (in particular greater than
the id the previous POST received), and after that POST all stored ids
are pairwise distinct. -/
theorem post_ids_strictly_increasing_unique (us : List User)
    (h : ReachableByPosts us) (name email password : String) :
    (∀ u ∈ us, u.id < (postUserHandler us name email password).2.id) ∧
    ((postUserHandler us name email password).1.map User.id).Nodup := by
  constructor
  · intro u hu
    have hmem : u.id ∈ us.map User.id := List.mem_map_of_mem _ hu
    rw [reachableByPosts_ids us h, List.mem_range'] at hmem
    obtain ⟨i, hi, he⟩ := hmem
    show u.id < us.length + 1
    omega
  · have h2 : ReachableByPosts (postUserHandler us name email password).1 :=
      ReachableByPosts.post us name email password h
    rw [reachableByPosts_ids _ h2]
    exact List.nodup_range' _ _

/-- Witness for C6 at the initial array: the id stored last (Jane, id 2)
is below the id the next POST assigns, and ids stay pairwise distinct
after that POST. -/
theorem post_ids_strictly_increasing_unique_witness :
    ({ id := 2, name := "Jane", password := "admin", email := "jane@test.com" } : User).id
      < (postUserHandler users "Ada" "ada@test.com" "pw").2.id ∧
    ((postUserHandler users "Ada" "ada@test.com" "pw").1.map User.id).Nodup :=
  ⟨(post_ids_strictly_increasing_unique users ReachableByPosts.init "Ada" "ada@test.com" "pw").1
      { id := 2, name := "Jane", password := "admin", email := "jane@test.com" } (by decide),
   (post_ids_strictly_increasing_unique users ReachableByPosts.init "Ada" "ada@test.com" "pw").2⟩

/-- Decomposition of a successful linear search: the list splits at the
found element and everything before it fails the predicate. -/
lemma find?_split {α : Type} (p : α → Bool) (l : List α) (a : α)
    (h : l.find? p = some a) :
    ∃ l₁ l₂, l = l₁ ++ a :: l₂ ∧ p a = true ∧ ∀ x ∈ l₁, p x = false := by
  induction l with
  | nil => simp at h
  | cons b t ih =>
    by_cases hb : p b = true
    · rw [List.find?_cons_of_pos _ hb] at h
      refine ⟨[], t, ?_, ?_, ?_⟩
      · simp only [List.nil_append]
        injection h with h
        rw [h]
      · injection h with h
        rw [← h]
        exact hb
      · intro x hx
        simp at hx
    · rw [List.find?_cons_of_neg _ hb] at h
      obtain ⟨l₁, l₂, hsplit, hp, hall⟩ := ih h
      refine ⟨b :: l₁, l₂, by rw [hsplit, List.cons_append], hp, ?_⟩
      intro x hx
      rcases List.mem_cons.mp hx with hx | hx
      · rw [hx]
        exact Bool.of_not_eq_true hb
      · exact hall x hx

/-- C10: the lookup of GET /api/users/:id compares the stored numeric id
to the string route parameter with loose equality: for every stored user
whose id the parameter denotes in decimal, the lookup succeeds and
returns the first user in insertion order whose id coerces equal to the
parameter; under strict string-to-number comparison the very same
request would match no record and answer the error body. -/
theorem looseEq_lookup_succeeds_strict_never (us : List User) (s : String)
    (u : User) (hu : u ∈ us) (hs : jsToNumber? s = some u.id) :
    (∃ l₁ l₂ v, us = l₁ ++ v :: l₂ ∧
        (getUserHandler us s).1 = GetUserBody.user v ∧
        jsLooseEq v.id s = true ∧
        ∀ w ∈ l₁, jsLooseEq w.id s = false) ∧
    getUserHandlerStrict us s = (GetUserBody.error "User not found", 200) := by
  constructor
  · have hm : jsLooseEq u.id s = true := by
      simp [jsLooseEq, hs]
    have hsome : (us.find? (fun w => jsLooseEq w.id s)).isSome := by
      rw [List.find?_isSome]
      exact ⟨u, hu, hm⟩
    rcases hf : us.find? (fun w => jsLooseEq w.id s) with _ | v
    · rw [hf] at hsome
      simp at hsome
    · obtain ⟨l₁, l₂, hsplit, hp, hall⟩ := find?_split _ _ _ hf
      exact ⟨l₁, l₂, v, hsplit, by simp [getUserHandler, hf], hp, hall⟩
  · have hnone : us.find? (fun w => jsStrictEq w.id s) = none := by
      rw [List.find?_eq_none]
      intro x hx
      simp [jsStrictEq]
    simp [getUserHandlerStrict, hnone]

/-- Witness for C10 at the initial array and the decimal string of the
second id: the strict lookup finds nobody while the loose lookup finds
Jane. -/
theorem looseEq_lookup_succeeds_strict_never_witness :
    getUserHandlerStrict users "2" = (GetUserBody.error "User not found", 200) ∧
    (getUserHandler users "2").1
      = GetUserBody.user { id := 2, name := "Jane", password := "admin", email := "jane@test.com" } :=
  ⟨(looseEq_lookup_succeeds_strict_never users "2"
      { id := 2, name := "Jane", password := "admin", email := "jane@test.com" }
      (by decide) (by decide)).2,
   by decide⟩

/-- C4: each GET /api/async-operation request has exactly one of two
outcomes, decided by the random draw: a draw of at most one half makes
the handler send the success payload with data Success and status 200;
a draw above one half makes someAsyncOperation throw, nothing catches
the rejection, and no response is produced for the request. -/
theorem asyncOperation_success_or_unhandled_crash (rand : ℚ) :
    (asyncOperationHandler rand = AsyncOpResult.jsonResponse 200 "Success" ∨
      asyncOperationHandler rand = AsyncOpResult.unhandledCrash "Random service failure") ∧
    (rand ≤ 1 / 2 → asyncOperationHandler rand = AsyncOpResult.jsonResponse 200 "Success") ∧
    (1 / 2 < rand → asyncOperationHandler rand = AsyncOpResult.unhandledCrash "Random service failure") := by
  by_cases h : (1 : ℚ) / 2 < rand
  · refine ⟨Or.inr ?_, fun hle => absurd h (not_lt.mpr hle), fun _ => ?_⟩ <;>
    · show (match someAsyncOperation rand with
          | Except.ok d => AsyncOpResult.jsonResponse 200 d
          | Except.error msg => AsyncOpResult.unhandledCrash msg) = _
      rw [someAsyncOperation, if_pos h]
  · refine ⟨Or.inl ?_, fun _ => ?_, fun hlt => absurd hlt h⟩ <;>
    · show (match someAsyncOperation rand with
          | Except.ok d => AsyncOpResult.jsonResponse 200 d
          | Except.error msg => AsyncOpResult.unhandledCrash msg) = _
      rw [someAsyncOperation, if_neg h]

/-- Witness for C4: a draw of one quarter answers the success payload, a
draw of three quarters crashes the request unhandled. -/
theorem asyncOperation_success_or_unhandled_crash_witness :
    asyncOperationHandler (1 / 4) = AsyncOpResult.jsonResponse 200 "Success" ∧
    asyncOperationHandler (3 / 4) = AsyncOpResult.unhandledCrash "Random service failure" :=
  ⟨(asyncOperation_success_or_unhandled_crash (1 / 4)).2.1 (by norm_num),
   (asyncOperation_success_or_unhandled_crash (3 / 4)).2.2 (by norm_num)⟩

/-- C5 evaluated at a failing input: requesting a file that does not
exist answers status 500 with a body whose path field is the raw
filesystem path ./uploads/missing.txt — the handler has no production
mode and echoes the path to every caller, against the claim. -/
theorem missing_file_response_carries_raw_path :
    getFileHandler emptyUploadsFs "missing.txt"
      = FileResponse.errorJson 500
          "ENOENT: no such file or directory, open ./uploads/missing.txt"
          "Error: ENOENT: no such file or directory, open ./uploads/missing.txt"
          "./uploads/missing.txt" := by
  decide

/-- C3 evaluated at a failing input: with one rendered entry, a click of
Add User grows the in-memory state array to two entries, but the
rendered list is unchanged — still the one previous entry, not two as
the claim requires — because setUsers receives the array object already
in state and React bails out without re-rendering. -/
theorem addUser_click_leaves_rendered_list_unchanged :
    (addUser (AppView.mk [ClientUser.mk 1 "John"] [ClientUser.mk 1 "John"])
        (ClientUser.mk 1759276800000 "New User")).stateUsers
      = [ClientUser.mk 1 "John", ClientUser.mk 1759276800000 "New User"] ∧
    (addUser (AppView.mk [ClientUser.mk 1 "John"] [ClientUser.mk 1 "John"])
        (ClientUser.mk 1759276800000 "New User")).renderedUsers
      = [ClientUser.mk 1 "John"] ∧
    (addUser (AppView.mk [ClientUser.mk 1 "John"] [ClientUser.mk 1 "John"])
        (ClientUser.mk 1759276800000 "New User")).renderedUsers.length = 1 := by
  refine ⟨rfl, rfl, rfl⟩

/-- C8: in every run of fetchUsers the first action sets loading to
true, the fetch is issued right after, the final action sets loading
back to false, and this holds for both settle outcomes (the failure one
having its error swallowed); the loading flag is false before the run,
true at every instant strictly between the first and the last action,
and false after the run. -/
theorem fetchUsers_loading_true_exactly_during (userId : Nat)
    (outcome : Except Unit GetUserBody) :
    (fetchUsersTrace userId outcome).head? = some (FetchEvent.setLoading true) ∧
    (fetchUsersTrace userId outcome)[1]?
      = some (FetchEvent.fetchStart ("/api/users/" ++ toString userId)) ∧
    (fetchUsersTrace userId outcome).getLast? = some (FetchEvent.setLoading false) ∧
    loadingStates (fetchUsersTrace userId outcome)
      = [false] ++ List.replicate ((fetchUsersTrace userId outcome).length - 1) true ++ [false] := by
  cases outcome with
  | ok data => exact ⟨rfl, rfl, rfl, rfl⟩
  | error e => exact ⟨rfl, rfl, rfl, rfl⟩

/-- C9: the mount effect fetches /api/users/0 (the initial count 0 used
as the user id); no stored user has id 0, so the server answers the
error object with message User not found, and the client stores that
non-array object into the users state, which afterwards is not a list of
user records. -/
theorem mount_fetch_stores_error_object_not_list :
    mountFetchUrl = "/api/users/0" ∧
    usersStateAfterMount = UsersState.obj (GetUserBody.error "User not found") ∧
    isUserList usersStateAfterMount = false := by
  refine ⟨rfl, by decide, by decide⟩
